import Mathlib

/-!
Shallow embedding of the notifications-delivery message processor
(src/notifications_delivery/processor/sqs_processor.py) and of the Twilio
SMS client status operation (src/notifications_delivery/clients/sms/twilio.py).

The collaborators (AWS SES, Twilio, the notify API client, the itsdangerous
decryption layer) are external; each call a single processing attempt can make
is modelled by an oracle field in `Env` giving that call's outcome.  Python
exceptions are modelled explicitly: the classified kinds `ProcessingError`,
`ExternalConnectionError` and `InvalidResponse` as constructors of `Exc`, and
anything else (BadSignature from decryption, AttributeError from a missing
message attribute, KeyError from a missing payload key, or an arbitrary
unexpected exception from a collaborator) as `Exc.unclassified` carrying a
`PyExc`.
-/

namespace NotificationsDelivery

/-- A decrypted payload: a JSON-like dict with the keys `_process_message`
inspects.  `some v` means the key is present with string value `v`; `none`
means the key is absent. -/
structure Content where
  job : Option String
  to_ : Option String
  to_address : Option String
  from_address : Option String
  subject : Option String
  body : Option String
  content : Option String
  template : Option String
deriving Repr, DecidableEq

/-- The four message attributes read at the top of `_process_message`.
`none` models a missing attribute: `message.message_attributes.get(k)` returns
`None` and the following `.get('StringValue')` raises `AttributeError`. -/
structure Attrs where
  type_ : Option String
  service_id : Option String
  template_id : Option String
  notification_id : Option String
deriving Repr, DecidableEq

/-- Unclassified Python exceptions that can escape `_process_message`. -/
inductive PyExc where
  | badSignature
  | attributeError
  | keyError (k : String)
  | otherExc (s : String)
deriving Repr, DecidableEq

/-- An exception in flight out of `_process_message`, as observed by
`process_all_queues`. -/
inductive Exc where
  | processingError
  | externalConnectionError
  | invalidResponse
  | unclassified (e : PyExc)
deriving Repr, DecidableEq

/-- Outcome of one `aws_ses_client.send_email` call: a message id, an
`AwsSesClientException`, or an unexpected exception. -/
inductive SesOutcome where
  | ok (rid : String)
  | clientExc
  | raised (e : PyExc)
deriving Repr, DecidableEq

/-- Outcome of one `twilio_client.send_sms` call: a sid, a
`TwilioClientException`, or an unexpected exception. -/
inductive TwilioOutcome where
  | ok (rid : String)
  | clientExc
  | raised (e : PyExc)
deriving Repr, DecidableEq

/-- Response dict of a successful `get_template` call; only the `content` key
is read (`template_response['content']`, a KeyError when absent). -/
structure TemplateResp where
  content : Option String
deriving Repr, DecidableEq

/-- Outcome of one notify API client call (`get_template` or
`create_notification`): success, `HTTP503Error`, another `HTTPError`, an
`InvalidResponse`, or an unexpected exception. -/
inductive ApiOutcome (α : Type) where
  | ok (v : α)
  | http503
  | httpError
  | invalidResponse
  | raised (e : PyExc)
deriving Repr, DecidableEq

/-- Oracles for the collaborator calls one `_process_message` attempt can
make.  Each field is the outcome that call would have if executed. -/
structure Env where
  sendEmail : SesOutcome
  sendSmsInline : TwilioOutcome
  getTemplate : ApiOutcome TemplateResp
  sendSmsTemplated : TwilioOutcome
  createNotification : ApiOutcome Unit
deriving Repr, DecidableEq

/-- One queue message as `_process_message` sees it: the outcome of
decrypting its body (`none` models a BadSignature/BadPayload from
`URLSafeSerializer.loads`) together with its message attributes and the
collaborator oracles for this processing attempt. -/
structure Message where
  decrypt : Option Content
  attrs : Attrs
  env : Env
deriving Repr, DecidableEq

/-- The argument tuple of one `create_notification` call. -/
structure FinRecord where
  service_id : String
  template_id : String
  job_id : String
  to_ : String
  status : String
  notification_id : String
deriving Repr, DecidableEq

/-- Observable trace of one `_process_message` call: the exception that
escapes (`none` = normal return), every `create_notification` call with its
arguments, every `send_email` and `send_sms` call, every `get_template` call,
and the value of the local `status` variable at the time the `finally` block
runs. -/
structure Trace where
  result : Option Exc
  reporter : List FinRecord
  emailSends : List (String × String × String × String)
  smsSends : List String
  templateCalls : List (String × String)
  dispatchStatus : String
deriving Repr, DecidableEq

/-- Trace of an attempt that aborts with an unclassified exception before the
try/finally block is entered (decryption, attribute extraction, or the `to`
lookup failed): no collaborator was called. -/
def abortTrace (e : PyExc) : Trace :=
  { result := some (Exc.unclassified e), reporter := [], emailSends := [],
    smsSends := [], templateCalls := [], dispatchStatus := "failed" }

/-- Python truthiness of `job_id` (`None` and the empty string are falsy). -/
def truthy : Option String → Bool
  | none => false
  | some s => !(s == "")

/-- Line 70: `to = content['to'] if 'to' in content else content['to_address']`;
a KeyError when both keys are absent. -/
def pickTo (c : Content) : Except PyExc String :=
  match c.to_ with
  | some t => Except.ok t
  | none =>
    match c.to_address with
    | some t => Except.ok t
    | none => Except.error (PyExc.keyError "to_address")

/-- Result of the dispatch part (the body of the `try` block): the value of
`status`, the exception in flight when control reaches `finally` (if any), and
the collaborator calls made. -/
structure DispatchResult where
  status : String
  exc : Option Exc
  emailSends : List (String × String × String × String)
  smsSends : List String
  templateCalls : List (String × String)
deriving Repr, DecidableEq

/-- The body of the `try` block of `_process_message` (lines 72-107):
dispatch on `type_`, with `status` starting as "failed" and set to "sent"
only immediately after a successful gateway send. -/
def dispatch (type_ : String) (c : Content) (service_id template_id : String)
    (env : Env) : DispatchResult :=
  if type_ = "email" then
    match c.from_address with
    | none => ⟨"failed", some (Exc.unclassified (PyExc.keyError "from_address")), [], [], []⟩
    | some f =>
      match c.to_address with
      | none => ⟨"failed", some (Exc.unclassified (PyExc.keyError "to_address")), [], [], []⟩
      | some t =>
        match c.subject with
        | none => ⟨"failed", some (Exc.unclassified (PyExc.keyError "subject")), [], [], []⟩
        | some s =>
          match c.body with
          | none => ⟨"failed", some (Exc.unclassified (PyExc.keyError "body")), [], [], []⟩
          | some b =>
            match env.sendEmail with
            | SesOutcome.ok _ => ⟨"sent", none, [(f, t, s, b)], [], []⟩
            | SesOutcome.clientExc => ⟨"failed", some Exc.processingError, [(f, t, s, b)], [], []⟩
            | SesOutcome.raised e => ⟨"failed", some (Exc.unclassified e), [(f, t, s, b)], [], []⟩
  else if type_ = "sms" then
    match c.content with
    | some cc =>
      match env.sendSmsInline with
      | TwilioOutcome.ok _ => ⟨"sent", none, [], [cc], []⟩
      | TwilioOutcome.clientExc => ⟨"failed", some Exc.processingError, [], [cc], []⟩
      | TwilioOutcome.raised e => ⟨"failed", some (Exc.unclassified e), [], [cc], []⟩
    | none =>
      match c.template with
      | some _ =>
        match env.getTemplate with
        | ApiOutcome.http503 =>
          ⟨"failed", some Exc.externalConnectionError, [], [], [(service_id, template_id)]⟩
        | ApiOutcome.httpError =>
          ⟨"failed", some Exc.processingError, [], [], [(service_id, template_id)]⟩
        | ApiOutcome.invalidResponse =>
          ⟨"failed", some Exc.invalidResponse, [], [], [(service_id, template_id)]⟩
        | ApiOutcome.raised e =>
          ⟨"failed", some (Exc.unclassified e), [], [], [(service_id, template_id)]⟩
        | ApiOutcome.ok resp =>
          match resp.content with
          | none =>
            ⟨"failed", some (Exc.unclassified (PyExc.keyError "content")), [], [],
              [(service_id, template_id)]⟩
          | some rc =>
            match env.sendSmsTemplated with
            | TwilioOutcome.ok _ => ⟨"sent", none, [], [rc], [(service_id, template_id)]⟩
            | TwilioOutcome.clientExc =>
              ⟨"failed", some Exc.processingError, [], [rc], [(service_id, template_id)]⟩
            | TwilioOutcome.raised e =>
              ⟨"failed", some (Exc.unclassified e), [], [rc], [(service_id, template_id)]⟩
      | none => ⟨"failed", none, [], [], []⟩
  else ⟨"failed", some Exc.processingError, [], [], []⟩

/-- The `finally` block of `_process_message` (lines 108-123): call
`create_notification` only when `job_id` is truthy; an exception raised by the
reporter replaces any exception in flight from the `try` block (Python
`finally` semantics).  Returns the exception escaping `_process_message` and
the reporter calls made. -/
def finalize (job_id : Option String) (service_id template_id to_ status notification_id : String)
    (outcome : ApiOutcome Unit) (dispatchExc : Option Exc) :
    Option Exc × List FinRecord :=
  if truthy job_id then
    let r : FinRecord :=
      { service_id := service_id, template_id := template_id,
        job_id := job_id.getD "", to_ := to_, status := status,
        notification_id := notification_id }
    match outcome with
    | ApiOutcome.ok _ => (dispatchExc, [r])
    | ApiOutcome.http503 => (some Exc.externalConnectionError, [r])
    | ApiOutcome.httpError => (some Exc.processingError, [r])
    | ApiOutcome.invalidResponse => (some Exc.invalidResponse, [r])
    | ApiOutcome.raised e => (some (Exc.unclassified e), [r])
  else (dispatchExc, [])

/-- `_process_message` (lines 62-123).  Lines 63-70 run before the
try/finally: decryption, the four attribute reads (each an AttributeError
when the attribute is missing), `job_id`, and `to` (a KeyError when neither
`to` nor `to_address` is present).  Then the `try` body dispatches and the
`finally` block reports. -/
def process_message (m : Message) : Trace :=
  match m.decrypt with
  | none => abortTrace PyExc.badSignature
  | some c =>
    match m.attrs.type_ with
    | none => abortTrace PyExc.attributeError
    | some type_ =>
      match m.attrs.service_id with
      | none => abortTrace PyExc.attributeError
      | some service_id =>
        match m.attrs.template_id with
        | none => abortTrace PyExc.attributeError
        | some template_id =>
          match m.attrs.notification_id with
          | none => abortTrace PyExc.attributeError
          | some notification_id =>
            match pickTo c with
            | Except.error e => abortTrace e
            | Except.ok to_ =>
              let d := dispatch type_ c service_id template_id m.env
              let f := finalize c.job service_id template_id to_ d.status
                notification_id m.env.createNotification d.exc
              { result := f.1, reporter := f.2, emailSends := d.emailSends,
                smsSends := d.smsSends, templateCalls := d.templateCalls,
                dispatchStatus := d.status }

/-- What `process_all_queues` does with one message's outcome: `some true` =
handled with `to_delete = True` (normal return or `ProcessingError`),
`some false` = handled with `to_delete = False` (`ExternalConnectionError`),
`none` = the exception is not caught by the per-message handlers and
propagates out of the per-queue message loop. -/
def msgDecision : Option Exc → Option Bool
  | none => some true
  | some Exc.processingError => some true
  | some Exc.externalConnectionError => some false
  | some Exc.invalidResponse => none
  | some (Exc.unclassified _) => none

/-- What happened to one received message after the cycle. -/
inductive Action where
  | deleted
  | retained
  | abandoned
deriving Repr, DecidableEq

/-- The per-queue message loop of `process_all_queues` (lines 148-169): each
message is processed and then deleted (`to_delete` true) or retained
(`to_delete` false); an uncaught exception aborts the loop, abandoning the
current message and every later message of the batch. -/
def processBatch : List Message → List Action
  | [] => []
  | m :: rest =>
    match msgDecision (process_message m).result with
    | some true => Action.deleted :: processBatch rest
    | some false => Action.retained :: processBatch rest
    | none => Action.abandoned :: rest.map (fun _ => Action.abandoned)

/-- The queue loop of `process_all_queues` (lines 142-172): every queue's
batch is processed; the per-queue `except Exception` handler confines any
escaping exception to its own queue. -/
def process_all_queues (qs : List (List Message)) : List (List Action) :=
  qs.map processBatch

/-- Result of one `TwilioClient.status` call. -/
inductive TwStatusResult where
  | ok (s : Option String)
  | clientExc
deriving Repr, DecidableEq

/-- `TwilioClient.status` (twilio.py lines 45-53): on a successful provider
lookup, return the provider status when it is one of `delivered`,
`undelivered`, `failed`, and `None` otherwise; a `TwilioRestException`
becomes a `TwilioClientException`.  The input models the outcome of
`self.client.messages.get(message_id)` as the provider status string or a
provider failure. -/
def twilio_status : Except Unit String → TwStatusResult
  | Except.error _ => TwStatusResult.clientExc
  | Except.ok s =>
    if s = "delivered" ∨ s = "undelivered" ∨ s = "failed" then
      TwStatusResult.ok (some s)
    else
      TwStatusResult.ok none

/-! ### Concrete messages used by witnesses and counterexamples -/

/-- Collaborator oracles where every call succeeds. -/
def envAllOk : Env :=
  { sendEmail := SesOutcome.ok "ses-1", sendSmsInline := TwilioOutcome.ok "SM1",
    getTemplate := ApiOutcome.ok { content := some "resolved text" },
    sendSmsTemplated := TwilioOutcome.ok "SM2",
    createNotification := ApiOutcome.ok () }

/-- Message attributes of an SMS envelope. -/
def attrsSms : Attrs :=
  { type_ := some "sms", service_id := some "s1", template_id := some "t1",
    notification_id := some "n1" }

/-- Message attributes of an email envelope. -/
def attrsEmail : Attrs :=
  { type_ := some "email", service_id := some "s1", template_id := some "t1",
    notification_id := some "n1" }

/-- An SMS payload whose `job` key is present but holds the empty string. -/
def payloadEmptyJob : Content :=
  { job := some "", to_ := some "07700900001", to_address := none, from_address := none,
    subject := none, body := none, content := some "hi", template := none }

/-- Envelope carrying `payloadEmptyJob`, with all collaborators healthy. -/
def msgEmptyJob : Message :=
  { decrypt := some payloadEmptyJob, attrs := attrsSms, env := envAllOk }

/-- An inline SMS payload with a non-empty `job`. -/
def payloadJobOk : Content :=
  { job := some "J1", to_ := some "07700900002", to_address := none, from_address := none,
    subject := none, body := none, content := some "hello", template := none }

/-- Envelope carrying `payloadJobOk`, with all collaborators healthy. -/
def msgJobOk : Message :=
  { decrypt := some payloadJobOk, attrs := attrsSms, env := envAllOk }

/-- Envelope whose body fails decryption (BadSignature). -/
def msgBadDecrypt : Message :=
  { decrypt := none, attrs := attrsSms, env := envAllOk }

/-- A templated SMS payload (no inline `content`, `template` present). -/
def payloadTemplated : Content :=
  { job := some "J1", to_ := some "07700900003", to_address := none, from_address := none,
    subject := none, body := none, content := none, template := some "tpl" }

/-- Templated-SMS envelope whose `get_template` call returns a malformed
response (`InvalidResponse`). -/
def msgInvalidResp : Message :=
  { decrypt := some payloadTemplated, attrs := attrsSms,
    env := { envAllOk with getTemplate := ApiOutcome.invalidResponse } }

/-- An SMS payload with neither a `content` key nor a `template` key. -/
def payloadNoTemplate : Content :=
  { job := none, to_ := some "07700900004", to_address := none, from_address := none,
    subject := none, body := none, content := none, template := none }

/-- Envelope carrying `payloadNoTemplate`. -/
def msgNoTemplate : Message :=
  { decrypt := some payloadNoTemplate, attrs := attrsSms, env := envAllOk }

/-- Templated-SMS envelope with all collaborators healthy. -/
def msgTemplated : Message :=
  { decrypt := some payloadTemplated, attrs := attrsSms, env := envAllOk }

/-- A valid email payload with a non-empty `job`. -/
def payloadEmailJob : Content :=
  { job := some "J1", to_ := none, to_address := some "a@b.test",
    from_address := some "noreply@svc.test", subject := some "subj", body := some "text",
    content := none, template := none }

/-- Email envelope whose send succeeds but whose `create_notification` call
fails with `HTTP503Error`. -/
def msgEmailReporter503 : Message :=
  { decrypt := some payloadEmailJob, attrs := attrsEmail,
    env := { envAllOk with createNotification := ApiOutcome.http503 } }

/-- Email envelope whose send raises `AwsSesClientException` and whose
`create_notification` call fails with `HTTP503Error`. -/
def msgEmailFailReporter503 : Message :=
  { decrypt := some payloadEmailJob, attrs := attrsEmail,
    env := { envAllOk with
             sendEmail := SesOutcome.clientExc
             createNotification := ApiOutcome.http503 } }

/-- A job-less email payload. -/
def payloadEmailNoJob : Content :=
  { job := none, to_ := none, to_address := some "c@d.test",
    from_address := some "noreply@svc.test", subject := some "s", body := some "b",
    content := none, template := none }

/-- Email envelope with a job-less payload, all collaborators healthy. -/
def msgEmailNoJob : Message :=
  { decrypt := some payloadEmailNoJob, attrs := attrsEmail, env := envAllOk }

/-- SMS payload with neither `content` nor `template` but with a non-empty
`job`. -/
def payloadNoTemplateJob : Content :=
  { job := some "J2", to_ := some "07700900005", to_address := none, from_address := none,
    subject := none, body := none, content := none, template := none }

/-- Envelope carrying `payloadNoTemplateJob` whose `create_notification` call
fails with `HTTP503Error`. -/
def msgNoTemplateJob503 : Message :=
  { decrypt := some payloadNoTemplateJob, attrs := attrsSms,
    env := { envAllOk with createNotification := ApiOutcome.http503 } }

/-- A three-message batch whose second message fails decryption. -/
def demoBatch : List Message := [msgJobOk, msgBadDecrypt, msgJobOk]

/-! ### Helper lemmas -/

/-- One action is recorded per received message. -/
theorem processBatch_length (l : List Message) : (processBatch l).length = l.length := by
  induction l with
  | nil => rfl
  | cons m rest ih =>
    simp only [processBatch]
    rcases msgDecision (process_message m).result with _ | b
    · simp
    · rcases b <;> simp [ih]

/-- Indexing into the all-abandoned tail. -/
theorem getElem_map_abandoned (l : List α) (j : Nat) (hj : j < l.length) :
    (l.map (fun _ => Action.abandoned))[j]? = some Action.abandoned := by
  rw [List.getElem?_map, List.getElem?_eq_getElem hj]
  rfl

/-- A message whose processing ends in an unclassified exception aborts the
per-queue loop: it and the rest of the batch are abandoned. -/
theorem batch_abort_of_unclassified (m : Message) (rest : List Message) (ex : PyExc)
    (hex : (process_message m).result = some (Exc.unclassified ex)) :
    processBatch (m :: rest) = Action.abandoned :: rest.map (fun _ => Action.abandoned) := by
  simp only [processBatch, hex, msgDecision]

/-- Decryption failure aborts processing before any collaborator call. -/
theorem process_message_decrypt_none (m : Message) (h : m.decrypt = none) :
    process_message m = abortTrace PyExc.badSignature := by
  unfold process_message
  rw [h]

/-! ### Claim theorems -/

/-- C10: for every delivery id, `TwilioClient.status` either fails with the
gateway error (`TwilioClientException`) when the provider call fails, or
returns one of `delivered`, `undelivered`, `failed`, or the unknown outcome
(Python `None`). -/
theorem c10_status_values (r : Except Unit String) :
    twilio_status r = TwStatusResult.clientExc ∨
    twilio_status r = TwStatusResult.ok (some "delivered") ∨
    twilio_status r = TwStatusResult.ok (some "undelivered") ∨
    twilio_status r = TwStatusResult.ok (some "failed") ∨
    twilio_status r = TwStatusResult.ok none := by
  rcases r with u | s
  · exact Or.inl rfl
  · by_cases h : s = "delivered" ∨ s = "undelivered" ∨ s = "failed"
    · rcases h with h | h | h <;> subst h <;> simp [twilio_status]
    · simp only [twilio_status, if_neg h]
      simp

/-- C1 (as stated, refuted): `msgEmptyJob` decodes to a payload that contains
a `job` key (holding the empty string), yet `_process_message` never invokes
the Status Reporter: `if job_id:` is false for a falsy job value. -/
theorem c1_counterexample :
    payloadEmptyJob.job.isSome = true ∧
    msgEmptyJob.decrypt = some payloadEmptyJob ∧
    (process_message msgEmptyJob).reporter.length = 0 := by
  refine ⟨rfl, rfl, rfl⟩

/-- C1 (amended): for every payload that decodes (decryption succeeded, the
four message attributes are present, and a recipient can be read from `to` or
`to_address`), one `_process_message` call invokes the Status Reporter exactly
once when the payload's `job` value is truthy (present and non-empty), and
never otherwise — on every outcome path, for every behaviour of the
collaborators. -/
theorem c1_reporter_once_iff_truthy_job
    (a : Attrs) (c : Content) (e : Env) (ty sid tid nid tov : String)
    (hty : a.type_ = some ty) (hsid : a.service_id = some sid)
    (htid : a.template_id = some tid) (hnid : a.notification_id = some nid)
    (hto : pickTo c = Except.ok tov) :
    (process_message ⟨some c, a, e⟩).reporter.length =
      (if truthy c.job then 1 else 0) := by
  unfold process_message
  simp only [hty, hsid, htid, hnid, hto]
  unfold finalize
  rcases htr : truthy c.job <;>
    rcases e.createNotification <;> simp [htr]

/-- C1 witness: on `msgJobOk` (non-empty job `J1`) the Status Reporter is
invoked exactly once. -/
theorem c1_witness : (process_message msgJobOk).reporter.length = 1 := by
  have h := c1_reporter_once_iff_truthy_job attrsSms payloadJobOk envAllOk
    "sms" "s1" "t1" "n1" "07700900002" rfl rfl rfl rfl rfl
  simpa using h

/-- C2 (as stated, refuted): `msgBadDecrypt` fails decryption, but the
failure is not a classified permanent failure: the exception escapes the
per-message handlers and the message is abandoned, not deleted. -/
theorem c2_counterexample :
    msgBadDecrypt.decrypt = none ∧
    processBatch [msgBadDecrypt] = [Action.abandoned] ∧
    Action.abandoned ≠ Action.deleted := by
  refine ⟨rfl, rfl, by decide⟩

/-- C2 (amended): every decode failure — decryption failure, a missing
required message attribute, or a payload with neither `to` nor `to_address` —
raises an unclassified exception (BadSignature, AttributeError, KeyError),
which the per-message handlers do not catch: the message is not deleted, and
it and the rest of its batch are abandoned for redelivery. -/
theorem c2_decode_failure_abandons
    (m : Message) (rest : List Message)
    (h : m.decrypt = none ∨
      ∃ c, m.decrypt = some c ∧
        (m.attrs.type_ = none ∨ m.attrs.service_id = none ∨ m.attrs.template_id = none ∨
         m.attrs.notification_id = none ∨ (c.to_ = none ∧ c.to_address = none))) :
    (∃ ex, (process_message m).result = some (Exc.unclassified ex)) ∧
    processBatch (m :: rest) = Action.abandoned :: rest.map (fun _ => Action.abandoned) := by
  have hres : ∃ ex, (process_message m).result = some (Exc.unclassified ex) := by
    rcases h with h | ⟨c, hc, h⟩
    · exact ⟨PyExc.badSignature, by simp only [process_message, h, abortTrace]⟩
    · rcases hty : m.attrs.type_ with _ | ty
      · exact ⟨PyExc.attributeError, by simp only [process_message, hc, hty, abortTrace]⟩
      rcases hsid : m.attrs.service_id with _ | sid
      · exact ⟨PyExc.attributeError, by simp only [process_message, hc, hty, hsid, abortTrace]⟩
      rcases htid : m.attrs.template_id with _ | tid
      · exact ⟨PyExc.attributeError,
          by simp only [process_message, hc, hty, hsid, htid, abortTrace]⟩
      rcases hnid : m.attrs.notification_id with _ | nid
      · exact ⟨PyExc.attributeError,
          by simp only [process_message, hc, hty, hsid, htid, hnid, abortTrace]⟩
      have hto : c.to_ = none ∧ c.to_address = none := by
        rcases h with h | h | h | h | h
        · rw [h] at hty; exact Option.noConfusion hty
        · rw [h] at hsid; exact Option.noConfusion hsid
        · rw [h] at htid; exact Option.noConfusion htid
        · rw [h] at hnid; exact Option.noConfusion hnid
        · exact h
      have hp : pickTo c = Except.error (PyExc.keyError "to_address") := by
        simp only [pickTo, hto.1, hto.2]
      exact ⟨PyExc.keyError "to_address",
        by simp only [process_message, hc, hty, hsid, htid, hnid, hp, abortTrace]⟩
  obtain ⟨ex, hex⟩ := hres
  exact ⟨⟨ex, hex⟩, batch_abort_of_unclassified m rest ex hex⟩

/-- C2 witness: a batch headed by the undecryptable `msgBadDecrypt` is fully
abandoned. -/
theorem c2_witness :
    processBatch [msgBadDecrypt, msgJobOk] = [Action.abandoned, Action.abandoned] := by
  have h := c2_decode_failure_abandons msgBadDecrypt [msgJobOk] (Or.inl rfl)
  simpa using h.2

/-- C3 (as stated, refuted): on `msgInvalidResp` the template resolver raises
`InvalidResponse`; the claim says this permanent kind leads to deletion, but
the exception is re-raised unmodified, is caught by neither per-message
handler, and the message is abandoned, not deleted. -/
theorem c3_counterexample :
    (process_message msgInvalidResp).result = some Exc.invalidResponse ∧
    processBatch [msgInvalidResp] = [Action.abandoned] ∧
    Action.abandoned ≠ Action.deleted := by
  refine ⟨rfl, rfl, by decide⟩

/-- C3 (amended): the driver deletes a message iff processing returned
normally or raised `ProcessingError`; it retains (without deleting) exactly on
`ExternalConnectionError`; and on `InvalidResponse` — exactly like an
unclassified failure — the exception escapes the per-message handlers, the
message is not deleted and the batch is abandoned from that point. -/
theorem c3_deletion_iff_permanent (m : Message) (rest : List Message) :
    ((processBatch (m :: rest)).head? = some Action.deleted ↔
      ((process_message m).result = none ∨
       (process_message m).result = some Exc.processingError)) ∧
    ((processBatch (m :: rest)).head? = some Action.retained ↔
      (process_message m).result = some Exc.externalConnectionError) ∧
    ((processBatch (m :: rest)).head? = some Action.abandoned ↔
      ((process_message m).result = some Exc.invalidResponse ∨
       ∃ ex, (process_message m).result = some (Exc.unclassified ex))) := by
  simp only [processBatch]
  rcases hr : (process_message m).result with _ | exc
  · simp [msgDecision]
  · rcases exc <;> simp [msgDecision]

/-- Unfolding of `_process_message` once decode succeeded: the trace is the
dispatch trace combined with the finalize step, with `status` computed before
the reporter call. -/
theorem process_message_eq (a : Attrs) (c : Content) (e : Env) (ty sid tid nid tov : String)
    (hty : a.type_ = some ty) (hsid : a.service_id = some sid)
    (htid : a.template_id = some tid) (hnid : a.notification_id = some nid)
    (hto : pickTo c = Except.ok tov) :
    process_message ⟨some c, a, e⟩ =
      { result := (finalize c.job sid tid tov (dispatch ty c sid tid e).status nid
          e.createNotification (dispatch ty c sid tid e).exc).1,
        reporter := (finalize c.job sid tid tov (dispatch ty c sid tid e).status nid
          e.createNotification (dispatch ty c sid tid e).exc).2,
        emailSends := (dispatch ty c sid tid e).emailSends,
        smsSends := (dispatch ty c sid tid e).smsSends,
        templateCalls := (dispatch ty c sid tid e).templateCalls,
        dispatchStatus := (dispatch ty c sid tid e).status } := by
  simp only [process_message, hty, hsid, htid, hnid, hto]

/-- When the reporter is skipped (falsy job) or succeeds, the exception from
the `try` block is what escapes. -/
theorem finalize_result_keeps_dispatch_exc (j : Option String)
    (sid tid tov st nid : String) (o : ApiOutcome Unit) (dx : Option Exc)
    (h : truthy j = false ∨ o = ApiOutcome.ok ()) :
    (finalize j sid tid tov st nid o dx).1 = dx := by
  rcases h with h | h
  · simp [finalize, h]
  · rcases ht : truthy j <;> simp [finalize, ht, h]

/-- A truthy job whose reporter call fails with `HTTP503Error`: the escaping
exception is `ExternalConnectionError`, superseding `dx`. -/
theorem finalize_http503 (j : Option String) (sid tid tov st nid : String)
    (dx : Option Exc) (hj : truthy j = true) :
    finalize j sid tid tov st nid ApiOutcome.http503 dx =
      (some Exc.externalConnectionError, [⟨sid, tid, j.getD "", tov, st, nid⟩]) := by
  simp [finalize, hj]

/-- A truthy job whose reporter call fails with another `HTTPError`: the
escaping exception is `ProcessingError`, superseding `dx`. -/
theorem finalize_httpError (j : Option String) (sid tid tov st nid : String)
    (dx : Option Exc) (hj : truthy j = true) :
    finalize j sid tid tov st nid ApiOutcome.httpError dx =
      (some Exc.processingError, [⟨sid, tid, j.getD "", tov, st, nid⟩]) := by
  simp [finalize, hj]

/-- A truthy job whose reporter call fails with `InvalidResponse`: the
exception is re-raised unmodified, superseding `dx`. -/
theorem finalize_invalidResponse (j : Option String) (sid tid tov st nid : String)
    (dx : Option Exc) (hj : truthy j = true) :
    finalize j sid tid tov st nid ApiOutcome.invalidResponse dx =
      (some Exc.invalidResponse, [⟨sid, tid, j.getD "", tov, st, nid⟩]) := by
  simp [finalize, hj]

/-- C4 (as stated, refuted): `msgNoTemplate` is an SMS request without inline
`content`, yet the Template Resolver is never called, because the code only
takes the template path when a `template` key is present. -/
theorem c4_counterexample :
    msgNoTemplate.attrs.type_ = some "sms" ∧
    payloadNoTemplate.content = none ∧
    (process_message msgNoTemplate).templateCalls = [] := by
  refine ⟨rfl, rfl, rfl⟩

/-- C4 (amended): for every decoded SMS request whose payload has no inline
`content` but does carry a `template` key, `_process_message` calls
`get_template` with `(service_id, template_id)` (whatever the resolver then
does), and when the resolver succeeds with rendered content and the SMS
gateway accepts it, the resolved content is sent and the status is `sent`. -/
theorem c4_templated_sms (a : Attrs) (c : Content) (e : Env)
    (sid tid nid tov tv : String)
    (hty : a.type_ = some "sms") (hsid : a.service_id = some sid)
    (htid : a.template_id = some tid) (hnid : a.notification_id = some nid)
    (hto : pickTo c = Except.ok tov)
    (hcontent : c.content = none) (htmpl : c.template = some tv) :
    (process_message ⟨some c, a, e⟩).templateCalls = [(sid, tid)] ∧
    (∀ resp rc rid, e.getTemplate = ApiOutcome.ok resp → resp.content = some rc →
      e.sendSmsTemplated = TwilioOutcome.ok rid →
      (process_message ⟨some c, a, e⟩).smsSends = [rc] ∧
      (process_message ⟨some c, a, e⟩).dispatchStatus = "sent") := by
  have hm := process_message_eq a c e "sms" sid tid nid tov hty hsid htid hnid hto
  constructor
  · rw [hm]
    show (dispatch "sms" c sid tid e).templateCalls = [(sid, tid)]
    rcases hg : e.getTemplate with resp | _ | _ | _ | ex
    · rcases hrc : resp.content with _ | rc
      · simp [dispatch, hcontent, htmpl, hg, hrc]
      · rcases hsend : e.sendSmsTemplated <;>
          simp [dispatch, hcontent, htmpl, hg, hrc, hsend]
    · simp [dispatch, hcontent, htmpl, hg]
    · simp [dispatch, hcontent, htmpl, hg]
    · simp [dispatch, hcontent, htmpl, hg]
    · simp [dispatch, hcontent, htmpl, hg]
  · intro resp rc rid hg hrc hsend
    have hd : dispatch "sms" c sid tid e = ⟨"sent", none, [], [rc], [(sid, tid)]⟩ := by
      simp [dispatch, hcontent, htmpl, hg, hrc, hsend]
    rw [hm, hd]
    exact ⟨rfl, rfl⟩

/-- C4 witness: on `msgTemplated` the resolver is called with `("s1", "t1")`
and the resolved content is sent. -/
theorem c4_witness :
    (process_message msgTemplated).templateCalls = [("s1", "t1")] ∧
    (process_message msgTemplated).smsSends = ["resolved text"] ∧
    (process_message msgTemplated).dispatchStatus = "sent" := by
  have h := c4_templated_sms attrsSms payloadTemplated envAllOk
    "s1" "t1" "n1" "07700900003" "tpl" rfl rfl rfl rfl rfl rfl rfl
  have h2 := h.2 ⟨some "resolved text"⟩ "resolved text" "SM2" rfl rfl rfl
  exact ⟨h.1, h2.1, h2.2⟩

/-- C5: when the reporter call in the `finally` block fails, its error
supersedes whatever dispatch produced, mapped by kind (`HTTP503Error` →
`ExternalConnectionError`, other `HTTPError` → `ProcessingError`,
`InvalidResponse` → re-raised unmodified), and the driver's delete/retain
decision follows this final error: retained on `ExternalConnectionError`,
deleted on `ProcessingError`, and message-loop abort on `InvalidResponse`. -/
theorem c5_reporter_failure_supersedes (a : Attrs) (c : Content) (e : Env)
    (ty sid tid nid tov : String)
    (hty : a.type_ = some ty) (hsid : a.service_id = some sid)
    (htid : a.template_id = some tid) (hnid : a.notification_id = some nid)
    (hto : pickTo c = Except.ok tov)
    (hjob : truthy c.job = true) :
    (e.createNotification = ApiOutcome.http503 →
      (process_message ⟨some c, a, e⟩).result = some Exc.externalConnectionError ∧
      processBatch [⟨some c, a, e⟩] = [Action.retained]) ∧
    (e.createNotification = ApiOutcome.httpError →
      (process_message ⟨some c, a, e⟩).result = some Exc.processingError ∧
      processBatch [⟨some c, a, e⟩] = [Action.deleted]) ∧
    (e.createNotification = ApiOutcome.invalidResponse →
      (process_message ⟨some c, a, e⟩).result = some Exc.invalidResponse ∧
      processBatch [⟨some c, a, e⟩] = [Action.abandoned]) := by
  have hm := process_message_eq a c e ty sid tid nid tov hty hsid htid hnid hto
  refine ⟨fun hrep => ?_, fun hrep => ?_, fun hrep => ?_⟩
  · have hr : (process_message ⟨some c, a, e⟩).result = some Exc.externalConnectionError := by
      rw [hm]
      show (finalize _ _ _ _ _ _ _ _).1 = _
      rw [hrep, finalize_http503 _ _ _ _ _ _ _ hjob]
    exact ⟨hr, by simp [processBatch, hr, msgDecision]⟩
  · have hr : (process_message ⟨some c, a, e⟩).result = some Exc.processingError := by
      rw [hm]
      show (finalize _ _ _ _ _ _ _ _).1 = _
      rw [hrep, finalize_httpError _ _ _ _ _ _ _ hjob]
    exact ⟨hr, by simp [processBatch, hr, msgDecision]⟩
  · have hr : (process_message ⟨some c, a, e⟩).result = some Exc.invalidResponse := by
      rw [hm]
      show (finalize _ _ _ _ _ _ _ _).1 = _
      rw [hrep, finalize_invalidResponse _ _ _ _ _ _ _ hjob]
    exact ⟨hr, by simp [processBatch, hr, msgDecision]⟩

/-- C5 witness: on `msgEmailFailReporter503` the dispatch raised
`ProcessingError` (a permanent kind), but the reporter's `HTTP503Error`
supersedes it: the final error is `ExternalConnectionError` and the message is
retained. -/
theorem c5_witness :
    (process_message msgEmailFailReporter503).result = some Exc.externalConnectionError ∧
    processBatch [msgEmailFailReporter503] = [Action.retained] := by
  have h := (c5_reporter_failure_supersedes attrsEmail payloadEmailJob
    msgEmailFailReporter503.env "email" "s1" "t1" "n1" "a@b.test"
    rfl rfl rfl rfl rfl rfl).1 rfl
  exact h

/-- From the position of a message whose processing ends in an unclassified
exception to the end of the batch, every action is `abandoned`. -/
theorem processBatch_abandoned_from (batch : List Message) (i j : Nat) (ex : PyExc)
    (hi : i < batch.length)
    (hex : (process_message batch[i]).result = some (Exc.unclassified ex))
    (hij : i ≤ j) (hj : j < batch.length) :
    (processBatch batch)[j]? = some Action.abandoned := by
  induction batch generalizing i j with
  | nil => simp at hi
  | cons m rest ih =>
    rcases i with _ | i
    · have hm : (process_message m).result = some (Exc.unclassified ex) := hex
      rw [batch_abort_of_unclassified m rest ex hm]
      rcases j with _ | j
      · simp
      · have hj' : j < rest.length := by
          simp only [List.length_cons] at hj
          omega
        simpa using getElem_map_abandoned rest j hj'
    · have hi' : i < rest.length := by
        simp only [List.length_cons] at hi
        omega
      have hex' : (process_message rest[i]).result = some (Exc.unclassified ex) := by
        simpa using hex
      rcases j with _ | j
      · omega
      · have hj' : j < rest.length := by
          simp only [List.length_cons] at hj
          omega
        rcases hd : msgDecision (process_message m).result with _ | b
        · simp only [processBatch, hd]
          simpa using getElem_map_abandoned rest j hj'
        · have hrec := ih i j hi' hex' (by omega) hj'
          rcases b <;> simp only [processBatch, hd] <;> simpa using hrec

/-- C6: if processing message `i` of a batch ends in an unclassified
exception, every message from position `i` to the end of that batch is
abandoned (in particular not deleted), while every queue of the cycle still
has its own batch processed independently of the others. -/
theorem c6_unclassified_failure_isolation (batch : List Message) (i j : Nat) (ex : PyExc)
    (hi : i < batch.length)
    (hex : (process_message batch[i]).result = some (Exc.unclassified ex))
    (hij : i ≤ j) (hj : j < batch.length) :
    ((processBatch batch)[j]? = some Action.abandoned ∧
     (processBatch batch)[j]? ≠ some Action.deleted) ∧
    ∀ (qs : List (List Message)) (k : Nat) (hk : k < qs.length),
      (process_all_queues qs)[k]? = some (processBatch qs[k]) := by
  have hab := processBatch_abandoned_from batch i j ex hi hex hij hj
  refine ⟨⟨hab, ?_⟩, ?_⟩
  · rw [hab]
    simp
  · intro qs k hk
    simp [process_all_queues, List.getElem?_map, List.getElem?_eq_getElem hk]

/-- C6 witness: in `demoBatch` the second message fails decryption
(unclassified), so messages 2 and 3 are abandoned, and a second queue polled
in the same cycle is still processed. -/
theorem c6_witness :
    (processBatch demoBatch)[1]? = some Action.abandoned ∧
    (processBatch demoBatch)[2]? = some Action.abandoned ∧
    (process_all_queues [demoBatch, [msgJobOk]])[1]? = some (processBatch [msgJobOk]) := by
  have h1 := c6_unclassified_failure_isolation demoBatch 1 1 PyExc.badSignature
    (by decide) rfl (by decide) (by decide)
  have h2 := c6_unclassified_failure_isolation demoBatch 1 2 PyExc.badSignature
    (by decide) rfl (by decide) (by decide)
  exact ⟨h1.1.1, h2.1.1, h1.2 [demoBatch, [msgJobOk]] 1 (by decide)⟩

/-- C7 (as stated, refuted): `msgNoTemplateJob503` is an SMS request with
neither `content` nor `template` and a non-empty `job`; the claim says the
message is deleted, but its reporter call fails with `HTTP503Error`, which
supersedes the silent dispatch fallthrough: the message is retained. -/
theorem c7_counterexample :
    payloadNoTemplateJob.content = none ∧
    payloadNoTemplateJob.template = none ∧
    truthy payloadNoTemplateJob.job = true ∧
    processBatch [msgNoTemplateJob503] = [Action.retained] ∧
    Action.retained ≠ Action.deleted := by
  refine ⟨rfl, rfl, rfl, rfl, by decide⟩

/-- C7 (amended): for every decoded SMS request with neither a `content` key
nor a `template` key, no gateway send and no resolver call happens and
dispatch raises nothing; the status stays `failed`; the Status Reporter is
invoked with status `failed` exactly when the payload's `job` is truthy
(present and non-empty); and the message is deleted whenever the job is falsy
or the reporter call succeeds (a failing reporter call supersedes, per the
finalizer rules), so the notification is silently dropped. -/
theorem c7_sms_without_template_dropped (a : Attrs) (c : Content) (e : Env)
    (sid tid nid tov : String)
    (hty : a.type_ = some "sms") (hsid : a.service_id = some sid)
    (htid : a.template_id = some tid) (hnid : a.notification_id = some nid)
    (hto : pickTo c = Except.ok tov)
    (hcontent : c.content = none) (htmpl : c.template = none) :
    (process_message ⟨some c, a, e⟩).emailSends = [] ∧
    (process_message ⟨some c, a, e⟩).smsSends = [] ∧
    (process_message ⟨some c, a, e⟩).templateCalls = [] ∧
    (process_message ⟨some c, a, e⟩).dispatchStatus = "failed" ∧
    (process_message ⟨some c, a, e⟩).reporter.map FinRecord.status =
      (if truthy c.job then ["failed"] else []) ∧
    ((truthy c.job = false ∨ e.createNotification = ApiOutcome.ok ()) →
      (process_message ⟨some c, a, e⟩).result = none ∧
      processBatch [⟨some c, a, e⟩] = [Action.deleted]) := by
  have hm := process_message_eq a c e "sms" sid tid nid tov hty hsid htid hnid hto
  have hd : dispatch "sms" c sid tid e = ⟨"failed", none, [], [], []⟩ := by
    simp [dispatch, hcontent, htmpl]
  rw [hm, hd]
  refine ⟨rfl, rfl, rfl, rfl, ?_, ?_⟩
  · rcases ht : truthy c.job <;> rcases ho : e.createNotification <;> simp [finalize, ht, ho]
  · intro h
    have hres : (finalize c.job sid tid tov "failed" nid e.createNotification none).1 = none :=
      finalize_result_keeps_dispatch_exc c.job sid tid tov "failed" nid
        e.createNotification none h
    refine ⟨hres, ?_⟩
    have hr2 : (process_message ⟨some c, a, e⟩).result = none := by
      rw [hm, hd]
      exact hres
    simp [processBatch, hr2, msgDecision]

/-- C7 witness: on `msgNoTemplate` (no `content`, no `template`, no `job`)
nothing is sent, no error is raised, the reporter is never invoked, and the
message is deleted. -/
theorem c7_witness :
    (process_message msgNoTemplate).smsSends = [] ∧
    (process_message msgNoTemplate).templateCalls = [] ∧
    (process_message msgNoTemplate).dispatchStatus = "failed" ∧
    (process_message msgNoTemplate).reporter.map FinRecord.status = [] ∧
    processBatch [msgNoTemplate] = [Action.deleted] := by
  have h := c7_sms_without_template_dropped attrsSms payloadNoTemplate envAllOk
    "s1" "t1" "n1" "07700900004" rfl rfl rfl rfl rfl rfl rfl
  have h6 := h.2.2.2.2.2 (Or.inl rfl)
  have h5 : (process_message msgNoTemplate).reporter.map FinRecord.status = [] := by
    simpa [payloadNoTemplate, truthy] using h.2.2.2.2.1
  exact ⟨h.2.1, h.2.2.1, h.2.2.2.1, h5, h6.2⟩

/-- C8 (as stated, refuted): on `msgEmailReporter503` the email gateway send
succeeds (`status = sent`), but the claim's "the message is deleted" fails:
the job-linked reporter call raises `HTTP503Error`, superseding the
successful dispatch, and the message is retained. -/
theorem c8_counterexample :
    (process_message msgEmailReporter503).dispatchStatus = "sent" ∧
    (process_message msgEmailReporter503).emailSends =
      [("noreply@svc.test", "a@b.test", "subj", "text")] ∧
    processBatch [msgEmailReporter503] = [Action.retained] ∧
    Action.retained ≠ Action.deleted := by
  refine ⟨rfl, rfl, rfl, by decide⟩

/-- C8 (amended): for every decoded email request (all four email fields
present), the email gateway is called with `(from_address, to_address,
subject, body)`; when no job-linked reporter failure supersedes the outcome
(falsy job or reporter success), a successful gateway call yields status
`sent` and deletion, and a gateway `AwsSesClientException` is classified as
`ProcessingError` (permanent) and the message is still deleted. -/
theorem c8_email_dispatch (a : Attrs) (c : Content) (e : Env)
    (sid tid nid tov f t s b : String)
    (hty : a.type_ = some "email") (hsid : a.service_id = some sid)
    (htid : a.template_id = some tid) (hnid : a.notification_id = some nid)
    (hto : pickTo c = Except.ok tov)
    (hf : c.from_address = some f) (ht2 : c.to_address = some t)
    (hs : c.subject = some s) (hb : c.body = some b)
    (hfin : truthy c.job = false ∨ e.createNotification = ApiOutcome.ok ()) :
    (process_message ⟨some c, a, e⟩).emailSends = [(f, t, s, b)] ∧
    (∀ rid, e.sendEmail = SesOutcome.ok rid →
      (process_message ⟨some c, a, e⟩).dispatchStatus = "sent" ∧
      (process_message ⟨some c, a, e⟩).result = none ∧
      processBatch [⟨some c, a, e⟩] = [Action.deleted]) ∧
    (e.sendEmail = SesOutcome.clientExc →
      (process_message ⟨some c, a, e⟩).result = some Exc.processingError ∧
      processBatch [⟨some c, a, e⟩] = [Action.deleted]) := by
  have hm := process_message_eq a c e "email" sid tid nid tov hty hsid htid hnid hto
  refine ⟨?_, fun rid hse => ?_, fun hse => ?_⟩
  · rw [hm]
    show (dispatch "email" c sid tid e).emailSends = [(f, t, s, b)]
    rcases hse : e.sendEmail <;> simp [dispatch, hf, ht2, hs, hb, hse]
  · have hd : dispatch "email" c sid tid e = ⟨"sent", none, [(f, t, s, b)], [], []⟩ := by
      simp [dispatch, hf, ht2, hs, hb, hse]
    have hr : (process_message ⟨some c, a, e⟩).result = none := by
      rw [hm, hd]
      exact finalize_result_keeps_dispatch_exc c.job sid tid tov "sent" nid
        e.createNotification none hfin
    refine ⟨by rw [hm, hd], hr, by simp [processBatch, hr, msgDecision]⟩
  · have hd : dispatch "email" c sid tid e =
        ⟨"failed", some Exc.processingError, [(f, t, s, b)], [], []⟩ := by
      simp [dispatch, hf, ht2, hs, hb, hse]
    have hr : (process_message ⟨some c, a, e⟩).result = some Exc.processingError := by
      rw [hm, hd]
      exact finalize_result_keeps_dispatch_exc c.job sid tid tov "failed" nid
        e.createNotification (some Exc.processingError) hfin
    refine ⟨hr, by simp [processBatch, hr, msgDecision]⟩

/-- C8 witness: on the job-less `msgEmailNoJob` the gateway is called with
the four email fields, the send succeeds, and the message is deleted. -/
theorem c8_witness :
    (process_message msgEmailNoJob).emailSends = [("noreply@svc.test", "c@d.test", "s", "b")] ∧
    (process_message msgEmailNoJob).dispatchStatus = "sent" ∧
    processBatch [msgEmailNoJob] = [Action.deleted] := by
  have h := c8_email_dispatch attrsEmail payloadEmailNoJob envAllOk
    "s1" "t1" "n1" "c@d.test" "noreply@svc.test" "c@d.test" "s" "b"
    rfl rfl rfl rfl rfl rfl rfl rfl rfl (Or.inl rfl)
  have h2 := h.2.1 "ses-1" rfl
  exact ⟨h.1, h2.1, h2.2.2⟩

/-- C9: for every decoded request with a truthy job whose dispatch ended with
`status = sent` (the gateway send succeeded) but whose reporter call fails
with `HTTP503Error`, `_process_message` raises `ExternalConnectionError`, the
message is retained for redelivery (risking a repeat send), and the status
the reporter was invoked with is `sent`, computed before the reporter call. -/
theorem c9_sent_then_reporter_unavailable (a : Attrs) (c : Content) (e : Env)
    (ty sid tid nid tov : String)
    (hty : a.type_ = some ty) (hsid : a.service_id = some sid)
    (htid : a.template_id = some tid) (hnid : a.notification_id = some nid)
    (hto : pickTo c = Except.ok tov)
    (hjob : truthy c.job = true)
    (hrep : e.createNotification = ApiOutcome.http503)
    (hsent : (dispatch ty c sid tid e).status = "sent") :
    (process_message ⟨some c, a, e⟩).result = some Exc.externalConnectionError ∧
    processBatch [⟨some c, a, e⟩] = [Action.retained] ∧
    (process_message ⟨some c, a, e⟩).reporter.map FinRecord.status = ["sent"] := by
  have hm := process_message_eq a c e ty sid tid nid tov hty hsid htid hnid hto
  have hr : (process_message ⟨some c, a, e⟩).result = some Exc.externalConnectionError := by
    rw [hm]
    show (finalize _ _ _ _ _ _ _ _).1 = _
    rw [hrep, finalize_http503 _ _ _ _ _ _ _ hjob]
  refine ⟨hr, by simp [processBatch, hr, msgDecision], ?_⟩
  rw [hm]
  show (finalize _ _ _ _ _ _ _ _).2.map FinRecord.status = _
  rw [hrep, finalize_http503 _ _ _ _ _ _ _ hjob]
  simp [hsent]

/-- C9 witness: `msgEmailReporter503` (successful email send, job `J1`,
reporter unavailable) raises `ExternalConnectionError` and reported status
`sent`. -/
theorem c9_witness :
    (process_message msgEmailReporter503).result = some Exc.externalConnectionError ∧
    processBatch [msgEmailReporter503] = [Action.retained] ∧
    (process_message msgEmailReporter503).reporter.map FinRecord.status = ["sent"] := by
  have h := c9_sent_then_reporter_unavailable attrsEmail payloadEmailJob
    msgEmailReporter503.env "email" "s1" "t1" "n1" "a@b.test"
    rfl rfl rfl rfl rfl rfl rfl rfl
  exact h

end NotificationsDelivery
